import Mathlib

/-!
Shallow embedding of the toast notification lifecycle manager of this
repository: the provider in src/src/context/ToastContext.tsx (showToast,
hideToast, useToast) and the auto-close timer of the Toast component in
src/src/components/feedback/Toast.tsx (handleClose and its effects).

Modelling conventions:
* `Math.random().toString(36).substring(2, 9)` is an external source of
  nondeterminism; the generated token is therefore an explicit input of
  `showToastList` / `enqueueM`.
* JS falsiness of `options.duration || 5000` over nonnegative integers is
  `durOrDefault`: absent and 0 both coalesce to 5000.
* `setTimeout` calls become entries of an explicit timer list carrying an
  absolute fire time; `runUntil` is the cooperative event loop, firing the
  earliest pending timer (ties broken by scheduling order) while its time
  is at or before the current instant.
* The Toast component's duration effect (`if (duration && isVisible &&
  !isLeaving) setTimeout(handleClose, duration)`) is the `autoClose`
  event; its cleanup (clearTimeout when the record is no longer visible or
  gone) is the `hasVisible` guard on firing. `handleClose`'s inner
  `setTimeout(..., 300)` that finally invokes `onClose` (that is,
  `hideToast id`) is the `finishClose` event.
* The opaque `action` React node is an uninterpreted `Option String`
  payload; `React.ReactNode` titles/descriptions are `String`s.
-/

/-- The fixed variant enum of ToastContext.tsx: ToastVariant. -/
inductive ToastVariant where
  | info
  | success
  | warning
  | error
deriving DecidableEq, Repr

/-- The ToastOptions interface of ToastContext.tsx (the NotificationRequest):
optional variant, optional title, required description, optional duration,
optional opaque action payload. -/
structure ToastOptions where
  variant : Option ToastVariant
  title : Option String
  description : String
  duration : Option Nat
  action : Option String
deriving DecidableEq, Repr

/-- `options.variant || 'info'` of showToast. -/
def variantOrDefault (v : Option ToastVariant) : ToastVariant :=
  v.getD ToastVariant.info

/-- `options.duration || 5000` of showToast: both an absent duration and a
caller-supplied 0 (falsy in JS) coalesce to the 5000 ms default. -/
def durOrDefault (d : Option Nat) : Nat :=
  match d with
  | none => 5000
  | some n => if n = 0 then 5000 else n

/-- The ToastData record of ToastContext.tsx: id, the defaulted fields, and
the visibility flag (`visible = false` is the `closing` state). -/
structure ToastData where
  id : String
  variant : ToastVariant
  title : Option String
  description : String
  duration : Nat
  action : Option String
  visible : Bool
deriving DecidableEq, Repr

/-- The record object literal built by showToast from its options and the
freshly generated id. -/
def mkToast (id : String) (o : ToastOptions) : ToastData :=
  { id := id
    variant := variantOrDefault o.variant
    title := o.title
    description := o.description
    duration := durOrDefault o.duration
    action := o.action
    visible := true }

/-- The collection update of showToast: `setToasts(prev => [...prev, {...}])`. -/
def showToastList (id : String) (o : ToastOptions) (prev : List ToastData) :
    List ToastData :=
  prev ++ [mkToast id o]

/-- The per-element update of hideToast's map:
`toast.id === id ? { ...toast, visible: false } : toast`. -/
def hideOne (id : String) (t : ToastData) : ToastData :=
  if t.id = id then { t with visible := false } else t

/-- The synchronous part of hideToast: `setToasts(prev => prev.map(...))`. -/
def hideToastSync (id : String) (ts : List ToastData) : List ToastData :=
  ts.map (hideOne id)

/-- The delayed part of hideToast, run by its 500 ms setTimeout:
`setToasts(prev => prev.filter(toast => toast.id !== id))`. -/
def removeToast (id : String) (ts : List ToastData) : List ToastData :=
  ts.filter (fun t => t.id ≠ id)

/-- The grace interval of hideToast's setTimeout (ms). -/
def GRACE : Nat := 500

/-- The exit-animation delay inside the Toast component's handleClose (ms). -/
def ANIM : Nat := 300

/-- Timer events pending in the host event loop. -/
inductive TEvent where
  /-- The Toast component's duration timer: fires handleClose. -/
  | autoClose (id : String)
  /-- handleClose's 300 ms timer: fires `onClose`, i.e. `hideToast id`. -/
  | finishClose (id : String)
  /-- hideToast's 500 ms timer: filters the record out of the collection. -/
  | removal (id : String)
deriving DecidableEq, Repr

/-- Provider state: the ordered toast collection plus the pending timers
(absolute fire time, event), in scheduling order. -/
structure MgrState where
  toasts : List ToastData
  timers : List (Nat × TEvent)
deriving DecidableEq, Repr

/-- hideToast: synchronously maps the collection, and schedules the removal
filter 500 ms from now.  Both effects happen unconditionally, whether or not
the id is present or still visible. -/
def dismissM (now : Nat) (id : String) (s : MgrState) : MgrState :=
  { toasts := hideToastSync id s.toasts
    timers := s.timers ++ [(now + GRACE, TEvent.removal id)] }

/-- Whether a record with this id is present and visible (the condition under
which the Toast component's duration effect keeps its timer armed). -/
def hasVisible (id : String) (ts : List ToastData) : Bool :=
  ts.any (fun t => t.id = id && t.visible)

/-- showToast plus the mounting of the rendered Toast, whose duration effect
arms the auto-close timer when the (defaulted) duration is truthy.  Returns
the new state and the id, which showToast returns synchronously. -/
def enqueueM (now : Nat) (id : String) (o : ToastOptions) (s : MgrState) :
    MgrState × String :=
  let d := durOrDefault o.duration
  ({ toasts := showToastList id o s.toasts
     timers := s.timers ++
       (if d ≠ 0 then [(now + d, TEvent.autoClose id)] else []) }, id)

/-- Effect of a timer event firing at instant `now`.  An `autoClose` whose
record is gone or no longer visible does nothing: the component's effect
cleanup has cleared that timeout.  `finishClose` performs the internal
`hideToast id` call.  `removal` runs hideToast's delayed filter. -/
def fireEvent (now : Nat) (e : TEvent) (s : MgrState) : MgrState :=
  match e with
  | TEvent.autoClose id =>
      if hasVisible id s.toasts then
        { s with timers := s.timers ++ [(now + ANIM, TEvent.finishClose id)] }
      else s
  | TEvent.finishClose id => dismissM now id s
  | TEvent.removal id => { s with toasts := removeToast id s.toasts }

/-- First pending timer with the minimal fire time (earliest-scheduled wins
ties, as in the host event loop). -/
def pickEarliest : List (Nat × TEvent) → Option (Nat × TEvent)
  | [] => none
  | t :: ts =>
    match pickEarliest ts with
    | none => some t
    | some u => if u.1 < t.1 then some u else some t

/-- Remove the first occurrence of a timer entry. -/
def removeFirstTimer (x : Nat × TEvent) : List (Nat × TEvent) →
    List (Nat × TEvent)
  | [] => []
  | t :: ts => if t = x then ts else t :: removeFirstTimer x ts

/-- Fuelled event loop: fire every pending timer whose time is at or before
`now`, earliest first. -/
def runUntil : Nat → Nat → MgrState → MgrState
  | 0, _, s => s
  | fuel + 1, now, s =>
    match pickEarliest s.timers with
    | none => s
    | some (tt, e) =>
      if tt ≤ now then
        runUntil fuel now
          (fireEvent tt e { s with timers := removeFirstTimer (tt, e) s.timers })
      else s

/-- Untimed operation language over the collection alone: an enqueue with its
generated token, the synchronous part of a dismiss, and a grace-interval
removal firing. -/
inductive Op where
  | enq (id : String) (o : ToastOptions)
  | dis (id : String)
  | rem (id : String)
deriving DecidableEq, Repr

/-- Apply one operation to the collection. -/
def applyOp (ts : List ToastData) (op : Op) : List ToastData :=
  match op with
  | Op.enq id o => showToastList id o ts
  | Op.dis id => hideToastSync id ts
  | Op.rem id => removeToast id ts

/-- Run a sequence of operations from a given collection. -/
def runOpsFrom (init : List ToastData) (ops : List Op) : List ToastData :=
  ops.foldl applyOp init

/-- Run a sequence of operations from the empty collection the provider
starts with. -/
def runOps (ops : List Op) : List ToastData :=
  runOpsFrom [] ops

/-- The tokens consumed by the enqueues of an operation sequence. -/
def enqIds : List Op → List String
  | [] => []
  | Op.enq id _ :: ops => id :: enqIds ops
  | Op.dis _ :: ops => enqIds ops
  | Op.rem _ :: ops => enqIds ops

/-- The context value provided by ToastProvider: the two operations. -/
structure ToastContextType where
  showToast : ToastOptions → String
  hideToast : String → Unit

/-- The useToast hook of ToastContext.tsx: reads the context, throws when it
is undefined (no ToastProvider above), returns it otherwise. -/
def useToast (ctx : Option ToastContextType) : Except String ToastContextType :=
  match ctx with
  | none => Except.error "useToast must be used within a ToastProvider"
  | some c => Except.ok c

/-- A fixed sample request used by concrete witnesses. -/
def sampleOpts : ToastOptions :=
  { variant := none
    title := none
    description := "hello"
    duration := none
    action := none }

/-- A request whose caller explicitly supplies duration 0. -/
def zeroOpts : ToastOptions :=
  { variant := none
    title := none
    description := "sticky"
    duration := some 0
    action := none }

/-- A request with duration 2000 ms, the spec's auto-dismiss scenario. -/
def autoOpts : ToastOptions :=
  { variant := none
    title := none
    description := "auto"
    duration := some 2000
    action := none }

/-- State right after enqueueing the duration-2000 request at instant 0 into
an empty provider. -/
def autoS1 : MgrState :=
  (enqueueM 0 "xxxxxxx" autoOpts (MgrState.mk [] [])).1

/-- State right after enqueueing at instant 0 and dismissing at instant 0:
one closing record, its auto-close timer still pending (harmless) and its
removal scheduled at 500. -/
def closingS : MgrState :=
  dismissM 0 "xxxxxxx" autoS1

/-! Helper lemmas shared by several claims. -/

/-- hideOne never changes the id field. -/
theorem hideOne_id (id : String) (t : ToastData) : (hideOne id t).id = t.id := by
  unfold hideOne
  split <;> rfl

/-- hideToastSync preserves the id sequence of the collection. -/
theorem hideToastSync_ids (id : String) (l : List ToastData) :
    (hideToastSync id l).map ToastData.id = l.map ToastData.id := by
  induction l with
  | nil => rfl
  | cons a l ih =>
    simp only [hideToastSync, List.map] at ih ⊢
    rw [hideOne_id, ih]

/-- hideToastSync leaves a collection without the id untouched. -/
theorem hideToastSync_absent (id : String) (l : List ToastData)
    (h : ∀ td ∈ l, td.id ≠ id) : hideToastSync id l = l := by
  induction l with
  | nil => rfl
  | cons a l ih =>
    have ha : a.id ≠ id := h a (by simp)
    simp only [hideToastSync, List.map] at ih ⊢
    rw [ih fun td hm => h td (by simp [hm])]
    unfold hideOne
    rw [if_neg ha]

/-- removeToast leaves a collection without the id untouched. -/
theorem removeToast_absent (id : String) (l : List ToastData)
    (h : ∀ td ∈ l, td.id ≠ id) : removeToast id l = l := by
  unfold removeToast
  rw [List.filter_eq_self]
  intro a ha
  simpa using h a ha

/-- Setting visible to false on an already-closing record is the identity. -/
theorem hideOne_closing (id : String) (t : ToastData) (h : t.visible = false) :
    hideOne id t = t := by
  unfold hideOne
  split
  · cases t
    simp_all
  · rfl

/-- No record with the dismissed id survives removeToast. -/
theorem removeToast_not_mem (id : String) (l : List ToastData) :
    ∀ td ∈ removeToast id l, td.id ≠ id := by
  intro td hm
  have := List.of_mem_filter hm
  simpa using this

/-- removeToast is idempotent. -/
theorem removeToast_idem (id : String) (l : List ToastData) :
    removeToast id (removeToast id l) = removeToast id l :=
  removeToast_absent id _ (removeToast_not_mem id l)

/-- Claim C1: dismissing an identifier that is absent from the collection
leaves the collection exactly unchanged at every point — the synchronous map
is the identity, the delayed removal filter is the identity, even the firing
of the scheduled removal timer leaves the collection as it was — no error is
raised (the operations are total) and no record is added. -/
theorem C1_dismiss_absent (s : MgrState) (now : Nat) (id : String)
    (h : s.toasts.all (fun td => !(td.id == id)) = true) :
    (dismissM now id s).toasts = s.toasts ∧
    hideToastSync id s.toasts = s.toasts ∧
    removeToast id s.toasts = s.toasts ∧
    (fireEvent (now + GRACE) (TEvent.removal id) (dismissM now id s)).toasts
      = s.toasts ∧
    (dismissM now id s).toasts.length = s.toasts.length := by
  have h' : ∀ td ∈ s.toasts, td.id ≠ id := by simpa using h
  have hsync : hideToastSync id s.toasts = s.toasts := hideToastSync_absent id _ h'
  have hrem : removeToast id s.toasts = s.toasts := removeToast_absent id _ h'
  refine ⟨?_, hsync, hrem, ?_, ?_⟩
  · simpa [dismissM] using hsync
  · simp [fireEvent, dismissM, hsync, hrem]
  · simp [dismissM, hsync]

/-- Witness for C1 at a concrete state holding one record with a different id. -/
theorem C1_dismiss_absent_witness :
    (MgrState.mk [mkToast "aaaaaaa" sampleOpts] []).toasts.all
        (fun td => !(td.id == "bbbbbbb")) = true ∧
    ((dismissM 0 "bbbbbbb" (MgrState.mk [mkToast "aaaaaaa" sampleOpts] [])).toasts
        = (MgrState.mk [mkToast "aaaaaaa" sampleOpts] []).toasts ∧
      hideToastSync "bbbbbbb" (MgrState.mk [mkToast "aaaaaaa" sampleOpts] []).toasts
        = (MgrState.mk [mkToast "aaaaaaa" sampleOpts] []).toasts ∧
      removeToast "bbbbbbb" (MgrState.mk [mkToast "aaaaaaa" sampleOpts] []).toasts
        = (MgrState.mk [mkToast "aaaaaaa" sampleOpts] []).toasts ∧
      (fireEvent (0 + GRACE) (TEvent.removal "bbbbbbb")
          (dismissM 0 "bbbbbbb" (MgrState.mk [mkToast "aaaaaaa" sampleOpts] []))).toasts
        = (MgrState.mk [mkToast "aaaaaaa" sampleOpts] []).toasts ∧
      (dismissM 0 "bbbbbbb" (MgrState.mk [mkToast "aaaaaaa" sampleOpts] [])).toasts.length
        = (MgrState.mk [mkToast "aaaaaaa" sampleOpts] []).toasts.length) :=
  ⟨by decide, C1_dismiss_absent (MgrState.mk [mkToast "aaaaaaa" sampleOpts] [])
    0 "bbbbbbb" (by decide)⟩

/-- Claim C2: enqueue appends exactly one new record at the end of the
collection, in state visible, with all fields taken from the request, an
omitted variant defaulting to info and an omitted duration defaulting to
5000 ms; the existing records are untouched and the generated identifier is
returned synchronously. -/
theorem C2_enqueue_appends (s : MgrState) (o : ToastOptions) (id : String)
    (now : Nat) :
    (enqueueM now id o s).2 = id ∧
    (enqueueM now id o s).1.toasts = s.toasts ++ [mkToast id o] ∧
    (mkToast id o).id = id ∧
    (mkToast id o).visible = true ∧
    (mkToast id o).title = o.title ∧
    (mkToast id o).description = o.description ∧
    (mkToast id o).action = o.action ∧
    (mkToast id o).variant = o.variant.getD ToastVariant.info ∧
    (o.variant = none → (mkToast id o).variant = ToastVariant.info) ∧
    (o.duration = none → (mkToast id o).duration = 5000) := by
  refine ⟨rfl, rfl, rfl, rfl, rfl, rfl, rfl, rfl, ?_, ?_⟩
  · intro hv
    simp [mkToast, variantOrDefault, hv]
  · intro hd
    simp [mkToast, durOrDefault, hd]

/-- Witness for C2 at a concrete request omitting variant and duration. -/
theorem C2_enqueue_appends_witness :
    (enqueueM 0 "ccccccc" sampleOpts (MgrState.mk [] [])).2 = "ccccccc" ∧
    (enqueueM 0 "ccccccc" sampleOpts (MgrState.mk [] [])).1.toasts
      = (MgrState.mk [] []).toasts ++ [mkToast "ccccccc" sampleOpts] ∧
    (mkToast "ccccccc" sampleOpts).id = "ccccccc" ∧
    (mkToast "ccccccc" sampleOpts).visible = true ∧
    (mkToast "ccccccc" sampleOpts).title = sampleOpts.title ∧
    (mkToast "ccccccc" sampleOpts).description = sampleOpts.description ∧
    (mkToast "ccccccc" sampleOpts).action = sampleOpts.action ∧
    (mkToast "ccccccc" sampleOpts).variant
      = sampleOpts.variant.getD ToastVariant.info ∧
    (sampleOpts.variant = none →
      (mkToast "ccccccc" sampleOpts).variant = ToastVariant.info) ∧
    (sampleOpts.duration = none →
      (mkToast "ccccccc" sampleOpts).duration = 5000) :=
  C2_enqueue_appends (MgrState.mk [] []) sampleOpts "ccccccc" 0

/-- Claim C10: useToast outside of a ToastProvider (no context value) throws
an Error with message 'useToast must be used within a ToastProvider', and
inside a provider it returns the context value (the showToast and hideToast
operations) without throwing. -/
theorem C10_useToast (c : ToastContextType) :
    useToast none
      = Except.error "useToast must be used within a ToastProvider" ∧
    useToast (some c) = Except.ok c :=
  ⟨rfl, rfl⟩

/-- hideOne changes none of the non-visibility fields. -/
theorem hideOne_frame (id : String) (t : ToastData) :
    (hideOne id t).variant = t.variant ∧
    (hideOne id t).title = t.title ∧
    (hideOne id t).description = t.description ∧
    (hideOne id t).duration = t.duration ∧
    (hideOne id t).action = t.action := by
  unfold hideOne
  split <;> simp

/-- hideOne on a non-matching record is the identity. -/
theorem hideOne_other (id : String) (t : ToastData) (h : t.id ≠ id) :
    hideOne id t = t := by
  unfold hideOne
  rw [if_neg h]

/-- hideOne on the matching record only lowers the visible flag. -/
theorem hideOne_match (id : String) (t : ToastData) (h : t.id = id) :
    hideOne id t = { t with visible := false } := by
  unfold hideOne
  rw [if_pos h]

/-- If the result of hideOne carries the looked-up id, it is closing. -/
theorem hideOne_visible_false (id : String) (t : ToastData)
    (h : (hideOne id t).id = id) : (hideOne id t).visible = false := by
  by_cases ht : t.id = id
  · rw [hideOne_match id t ht]
  · rw [hideOne_other id t ht] at h ⊢
    exact absurd h ht

/-- Claim C3: dismiss on a visible record turns it to closing synchronously
(the record is still present, with the matching id no longer visible, when
the call returns), keeps the id order, and schedules the removal filter
exactly 500 ms after the dismiss took effect; when that timer fires the
record is gone from the collection. -/
theorem C3_dismiss_visible (s : MgrState) (now : Nat) (id : String)
    (h : hasVisible id s.toasts = true) :
    (dismissM now id s).toasts.all
      (fun td => !(td.id == id) || !td.visible) = true ∧
    (dismissM now id s).toasts.any (fun td => td.id == id) = true ∧
    (dismissM now id s).toasts.map ToastData.id = s.toasts.map ToastData.id ∧
    (dismissM now id s).timers = s.timers ++ [(now + 500, TEvent.removal id)] ∧
    (fireEvent (now + 500) (TEvent.removal id) (dismissM now id s)).toasts.all
      (fun td => !(td.id == id)) = true := by
  obtain ⟨t, ht, hid, hvis⟩ : ∃ t ∈ s.toasts, t.id = id ∧ t.visible = true := by
    simpa [hasVisible] using h
  refine ⟨?_, ?_, hideToastSync_ids id s.toasts, rfl, ?_⟩
  · simp only [List.all_eq_true, dismissM, hideToastSync, List.mem_map]
    rintro b ⟨a, _, rfl⟩
    by_cases hb : (hideOne id a).id = id
    · simp [hb, hideOne_visible_false id a hb]
    · simp [hb]
  · simp only [List.any_eq_true, dismissM, hideToastSync, List.mem_map]
    exact ⟨hideOne id t, ⟨t, ht, rfl⟩, by simp [hideOne_id, hid]⟩
  · simp only [List.all_eq_true, fireEvent, dismissM]
    intro td htd
    simpa using removeToast_not_mem id _ td htd

/-- Witness for C3 at a concrete state holding one visible record. -/
theorem C3_dismiss_visible_witness :
    hasVisible "aaaaaaa" (MgrState.mk [mkToast "aaaaaaa" sampleOpts] []).toasts
      = true ∧
    ((dismissM 7 "aaaaaaa" (MgrState.mk [mkToast "aaaaaaa" sampleOpts] [])).toasts.all
        (fun td => !(td.id == "aaaaaaa") || !td.visible) = true ∧
      (dismissM 7 "aaaaaaa" (MgrState.mk [mkToast "aaaaaaa" sampleOpts] [])).toasts.any
        (fun td => td.id == "aaaaaaa") = true ∧
      (dismissM 7 "aaaaaaa" (MgrState.mk [mkToast "aaaaaaa" sampleOpts] [])).toasts.map
          ToastData.id
        = (MgrState.mk [mkToast "aaaaaaa" sampleOpts] []).toasts.map ToastData.id ∧
      (dismissM 7 "aaaaaaa" (MgrState.mk [mkToast "aaaaaaa" sampleOpts] [])).timers
        = (MgrState.mk [mkToast "aaaaaaa" sampleOpts] []).timers
            ++ [(7 + 500, TEvent.removal "aaaaaaa")] ∧
      (fireEvent (7 + 500) (TEvent.removal "aaaaaaa")
          (dismissM 7 "aaaaaaa" (MgrState.mk [mkToast "aaaaaaa" sampleOpts] []))).toasts.all
        (fun td => !(td.id == "aaaaaaa")) = true) :=
  ⟨by decide, C3_dismiss_visible (MgrState.mk [mkToast "aaaaaaa" sampleOpts] [])
    7 "aaaaaaa" (by decide)⟩

/-- Claim C9: the synchronous effect of dismiss is a pure per-record map that
can only lower the visible flag of the records whose id matches: the length
is unchanged, every record keeps its id, variant, title, description,
duration and action, non-matching records are exactly unchanged, and a
matching record differs only in visible being false. -/
theorem C9_dismiss_frame (l : List ToastData) (id : String) (i : Nat)
    (h : i < l.length) (h2 : i < (hideToastSync id l).length) :
    (hideToastSync id l).length = l.length ∧
    ((hideToastSync id l).get ⟨i, h2⟩).id = (l.get ⟨i, h⟩).id ∧
    ((hideToastSync id l).get ⟨i, h2⟩).variant = (l.get ⟨i, h⟩).variant ∧
    ((hideToastSync id l).get ⟨i, h2⟩).title = (l.get ⟨i, h⟩).title ∧
    ((hideToastSync id l).get ⟨i, h2⟩).description
      = (l.get ⟨i, h⟩).description ∧
    ((hideToastSync id l).get ⟨i, h2⟩).duration = (l.get ⟨i, h⟩).duration ∧
    ((hideToastSync id l).get ⟨i, h2⟩).action = (l.get ⟨i, h⟩).action ∧
    ((l.get ⟨i, h⟩).id ≠ id →
      (hideToastSync id l).get ⟨i, h2⟩ = l.get ⟨i, h⟩) ∧
    ((l.get ⟨i, h⟩).id = id →
      (hideToastSync id l).get ⟨i, h2⟩
        = { l.get ⟨i, h⟩ with visible := false }) := by
  have key : (hideToastSync id l).get ⟨i, h2⟩ = hideOne id (l.get ⟨i, h⟩) := by
    simp [hideToastSync, List.get_eq_getElem]
  obtain ⟨hv, htl, hd, hdur, ha⟩ := hideOne_frame id (l.get ⟨i, h⟩)
  refine ⟨by simp [hideToastSync], ?_, ?_, ?_, ?_, ?_, ?_, ?_, ?_⟩
  · rw [key, hideOne_id]
  · rw [key, hv]
  · rw [key, htl]
  · rw [key, hd]
  · rw [key, hdur]
  · rw [key, ha]
  · intro hne
    rw [key, hideOne_other id _ hne]
  · intro heq
    rw [key, hideOne_match id _ heq]

/-- Witness for C9 on a concrete two-record collection, at the index of the
record being dismissed. -/
theorem C9_dismiss_frame_witness :
    0 < [mkToast "aaaaaaa" sampleOpts, mkToast "bbbbbbb" sampleOpts].length ∧
    0 < (hideToastSync "aaaaaaa"
      [mkToast "aaaaaaa" sampleOpts, mkToast "bbbbbbb" sampleOpts]).length ∧
    ((hideToastSync "aaaaaaa"
        [mkToast "aaaaaaa" sampleOpts, mkToast "bbbbbbb" sampleOpts]).length
      = [mkToast "aaaaaaa" sampleOpts, mkToast "bbbbbbb" sampleOpts].length ∧
    ((hideToastSync "aaaaaaa"
        [mkToast "aaaaaaa" sampleOpts, mkToast "bbbbbbb" sampleOpts]).get
          ⟨0, by decide⟩).id
      = ([mkToast "aaaaaaa" sampleOpts, mkToast "bbbbbbb" sampleOpts].get
          ⟨0, by decide⟩).id ∧
    ((hideToastSync "aaaaaaa"
        [mkToast "aaaaaaa" sampleOpts, mkToast "bbbbbbb" sampleOpts]).get
          ⟨0, by decide⟩).variant
      = ([mkToast "aaaaaaa" sampleOpts, mkToast "bbbbbbb" sampleOpts].get
          ⟨0, by decide⟩).variant ∧
    ((hideToastSync "aaaaaaa"
        [mkToast "aaaaaaa" sampleOpts, mkToast "bbbbbbb" sampleOpts]).get
          ⟨0, by decide⟩).title
      = ([mkToast "aaaaaaa" sampleOpts, mkToast "bbbbbbb" sampleOpts].get
          ⟨0, by decide⟩).title ∧
    ((hideToastSync "aaaaaaa"
        [mkToast "aaaaaaa" sampleOpts, mkToast "bbbbbbb" sampleOpts]).get
          ⟨0, by decide⟩).description
      = ([mkToast "aaaaaaa" sampleOpts, mkToast "bbbbbbb" sampleOpts].get
          ⟨0, by decide⟩).description ∧
    ((hideToastSync "aaaaaaa"
        [mkToast "aaaaaaa" sampleOpts, mkToast "bbbbbbb" sampleOpts]).get
          ⟨0, by decide⟩).duration
      = ([mkToast "aaaaaaa" sampleOpts, mkToast "bbbbbbb" sampleOpts].get
          ⟨0, by decide⟩).duration ∧
    ((hideToastSync "aaaaaaa"
        [mkToast "aaaaaaa" sampleOpts, mkToast "bbbbbbb" sampleOpts]).get
          ⟨0, by decide⟩).action
      = ([mkToast "aaaaaaa" sampleOpts, mkToast "bbbbbbb" sampleOpts].get
          ⟨0, by decide⟩).action ∧
    (([mkToast "aaaaaaa" sampleOpts, mkToast "bbbbbbb" sampleOpts].get
        ⟨0, by decide⟩).id ≠ "aaaaaaa" →
      (hideToastSync "aaaaaaa"
        [mkToast "aaaaaaa" sampleOpts, mkToast "bbbbbbb" sampleOpts]).get
          ⟨0, by decide⟩
        = [mkToast "aaaaaaa" sampleOpts, mkToast "bbbbbbb" sampleOpts].get
          ⟨0, by decide⟩) ∧
    (([mkToast "aaaaaaa" sampleOpts, mkToast "bbbbbbb" sampleOpts].get
        ⟨0, by decide⟩).id = "aaaaaaa" →
      (hideToastSync "aaaaaaa"
        [mkToast "aaaaaaa" sampleOpts, mkToast "bbbbbbb" sampleOpts]).get
          ⟨0, by decide⟩
        = { [mkToast "aaaaaaa" sampleOpts, mkToast "bbbbbbb" sampleOpts].get
            ⟨0, by decide⟩ with visible := false })) :=
  ⟨by decide, by decide,
    C9_dismiss_frame [mkToast "aaaaaaa" sampleOpts, mkToast "bbbbbbb" sampleOpts]
      "aaaaaaa" 0 (by decide) (by decide)⟩

/-- Claim C8: iteration order is insertion order and is preserved by every
mutation except removal — enqueue appends the new id at the end, the
synchronous dismiss map keeps the id sequence, removal keeps the surviving
records in their relative order (a sublist), and in the two-toast scenario
enqueue A then enqueue B yields order [A, B] while dismissing A and letting
its grace interval elapse leaves exactly [B] with B's record unchanged. -/
theorem C8_insertion_order (l : List ToastData) (id A B : String)
    (o oA oB : ToastOptions) (hAB : A ≠ B) :
    (showToastList id o l).map ToastData.id = l.map ToastData.id ++ [id] ∧
    (hideToastSync id l).map ToastData.id = l.map ToastData.id ∧
    List.Sublist (removeToast id l) l ∧
    (runOps [Op.enq A oA, Op.enq B oB]).map ToastData.id = [A, B] ∧
    runOps [Op.enq A oA, Op.enq B oB, Op.dis A, Op.rem A] = [mkToast B oB] := by
  have hBA : B ≠ A := hAB.symm
  refine ⟨by simp [showToastList, mkToast], hideToastSync_ids id l,
    List.filter_sublist l, by simp [runOps, runOpsFrom, applyOp, showToastList,
      mkToast], ?_⟩
  show removeToast A (hideToastSync A
    (showToastList B oB (showToastList A oA []))) = [mkToast B oB]
  have h1 : showToastList B oB (showToastList A oA [])
      = [mkToast A oA, mkToast B oB] := by
    simp [showToastList]
  rw [h1]
  have h2 : hideToastSync A [mkToast A oA, mkToast B oB]
      = [{ mkToast A oA with visible := false }, mkToast B oB] := by
    simp only [hideToastSync, List.map]
    rw [hideOne_match A _ rfl, hideOne_other A _ hBA]
  rw [h2]
  simp [removeToast, mkToast, hBA]

/-- Witness for C8 with two distinct concrete identifiers. -/
theorem C8_insertion_order_witness :
    "aaaaaaa" ≠ "bbbbbbb" ∧
    ((showToastList "ccccccc" sampleOpts [mkToast "ddddddd" sampleOpts]).map
        ToastData.id
      = [mkToast "ddddddd" sampleOpts].map ToastData.id ++ ["ccccccc"] ∧
    (hideToastSync "ccccccc" [mkToast "ddddddd" sampleOpts]).map ToastData.id
      = [mkToast "ddddddd" sampleOpts].map ToastData.id ∧
    List.Sublist (removeToast "ccccccc" [mkToast "ddddddd" sampleOpts])
      [mkToast "ddddddd" sampleOpts] ∧
    (runOps [Op.enq "aaaaaaa" sampleOpts, Op.enq "bbbbbbb" sampleOpts]).map
        ToastData.id = ["aaaaaaa", "bbbbbbb"] ∧
    runOps [Op.enq "aaaaaaa" sampleOpts, Op.enq "bbbbbbb" sampleOpts,
        Op.dis "aaaaaaa", Op.rem "aaaaaaa"]
      = [mkToast "bbbbbbb" sampleOpts]) :=
  ⟨by decide, C8_insertion_order [mkToast "ddddddd" sampleOpts] "ccccccc"
    "aaaaaaa" "bbbbbbb" sampleOpts sampleOpts sampleOpts (by decide)⟩

/-- The ids present in the collection after any run are drawn, in order,
from the tokens consumed by the enqueues. -/
theorem runOpsFrom_ids_sublist (ops : List Op) : ∀ init : List ToastData,
    List.Sublist ((runOpsFrom init ops).map ToastData.id)
      (init.map ToastData.id ++ enqIds ops) := by
  induction ops with
  | nil =>
    intro init
    simp [runOpsFrom, enqIds]
  | cons op ops ih =>
    intro init
    cases op with
    | enq id o =>
      have h := ih (showToastList id o init)
      have hmap : (showToastList id o init).map ToastData.id
          = init.map ToastData.id ++ [id] := by
        simp [showToastList, mkToast]
      rw [hmap] at h
      simpa [runOpsFrom, enqIds, List.append_assoc] using h
    | dis id =>
      have h := ih (hideToastSync id init)
      rw [hideToastSync_ids] at h
      simpa [runOpsFrom, enqIds] using h
    | rem id =>
      have h := ih (removeToast id init)
      have hsub : List.Sublist ((removeToast id init).map ToastData.id)
          (init.map ToastData.id) :=
        List.Sublist.map ToastData.id (List.filter_sublist init)
      have hsub2 : List.Sublist
          ((removeToast id init).map ToastData.id ++ enqIds ops)
          (init.map ToastData.id ++ enqIds ops) :=
        List.Sublist.append hsub (List.Sublist.refl _)
      simpa [runOpsFrom, enqIds] using h.trans hsub2

/-- Claim C4 (amended): provided the random tokens drawn by the enqueues of
a run are pairwise distinct, the identifiers of the currently-held records
are pairwise distinct at all times. -/
theorem C4_unique_ids (ops : List Op) (h : (enqIds ops).Nodup) :
    ((runOps ops).map ToastData.id).Nodup := by
  have hs := runOpsFrom_ids_sublist ops []
  simp only [List.map_nil, List.nil_append] at hs
  exact List.Nodup.sublist hs h

/-- Witness for C4: three operations whose two tokens are distinct. -/
theorem C4_unique_ids_witness :
    (enqIds [Op.enq "aaaaaaa" sampleOpts, Op.enq "bbbbbbb" sampleOpts,
      Op.dis "aaaaaaa"]).Nodup ∧
    ((runOps [Op.enq "aaaaaaa" sampleOpts, Op.enq "bbbbbbb" sampleOpts,
      Op.dis "aaaaaaa"]).map ToastData.id).Nodup :=
  ⟨by decide, C4_unique_ids [Op.enq "aaaaaaa" sampleOpts,
    Op.enq "bbbbbbb" sampleOpts, Op.dis "aaaaaaa"] (by decide)⟩

/-- Counterexample for C4 as stated: the token source (Math.random drawing a
short alphanumeric string, with no uniqueness check against held records)
can produce the same token twice, and then two held records share one
identifier — the returned identifiers are not pairwise distinct. -/
theorem C4_counterexample :
    ¬ (((runOps [Op.enq "aaaaaaa" sampleOpts, Op.enq "aaaaaaa" sampleOpts]).map
        ToastData.id).Nodup) ∧
    (runOps [Op.enq "aaaaaaa" sampleOpts, Op.enq "aaaaaaa" sampleOpts]).length
      = 2 := by
  decide

/-- Claim C5 (amended): a caller-supplied duration of 0 is falsy in
`options.duration || 5000`, so it is coalesced to the 5000 ms default: the
record is stored with duration 5000 and IS scheduled for automatic dismissal
5000 ms after enqueue (auto-dismiss is not disabled). -/
theorem C5_zero_duration (s : MgrState) (o : ToastOptions) (id : String)
    (now : Nat) (h : o.duration = some 0) :
    durOrDefault o.duration = 5000 ∧
    (enqueueM now id o s).1.timers
      = s.timers ++ [(now + 5000, TEvent.autoClose id)] ∧
    (mkToast id o).duration = 5000 := by
  have hd : durOrDefault o.duration = 5000 := by simp [durOrDefault, h]
  refine ⟨hd, ?_, ?_⟩
  · simp [enqueueM, hd]
  · simp [mkToast, hd]

/-- Witness for C5 at the concrete zero-duration request. -/
theorem C5_zero_duration_witness :
    zeroOpts.duration = some 0 ∧
    (durOrDefault zeroOpts.duration = 5000 ∧
      (enqueueM 0 "zzzzzzz" zeroOpts (MgrState.mk [] [])).1.timers
        = (MgrState.mk [] []).timers ++ [(0 + 5000, TEvent.autoClose "zzzzzzz")] ∧
      (mkToast "zzzzzzz" zeroOpts).duration = 5000) :=
  ⟨rfl, C5_zero_duration (MgrState.mk [] []) zeroOpts "zzzzzzz" 0 rfl⟩

/-- Counterexample for C5 as stated: enqueueing a request with
caller-supplied duration 0 does schedule an auto-dismiss timer (at 5000 ms),
and the stored record's duration is 5000, not a disabled auto-dismiss. -/
theorem C5_counterexample :
    (enqueueM 0 "zzzzzzz" zeroOpts (MgrState.mk [] [])).1.timers
      = [(5000, TEvent.autoClose "zzzzzzz")] ∧
    (enqueueM 0 "zzzzzzz" zeroOpts (MgrState.mk [] [])).1.timers ≠ [] ∧
    (mkToast "zzzzzzz" zeroOpts).duration = 5000 := by
  decide

/-- The duration stored by showToast is never 0: `options.duration || 5000`
coalesces every falsy input to 5000. -/
theorem durOrDefault_ne_zero (d : Option Nat) : durOrDefault d ≠ 0 := by
  cases d with
  | none => decide
  | some n =>
    by_cases h : n = 0
    · simp [durOrDefault, h]
    · simp [durOrDefault, h]

/-- Claim C6 (amended): each record is scheduled at enqueue time for an
auto-close after its (defaulted) duration; when that timer fires on a still
visible record it starts the 300 ms exit animation, and when the animation
timer fires the manager performs exactly an internal dismiss at that moment
— so the dismiss state change happens at duration + 300 ms, not at duration.
In the concrete duration-2000 scenario the record is visible through 2299,
closing from 2300 through 2799, and removed at 2800. -/
theorem C6_auto_dismiss (s : MgrState) (o : ToastOptions) (id : String)
    (t0 t : Nat) (h : hasVisible id s.toasts = true) :
    (enqueueM t0 id o s).1.timers
      = s.timers ++ [(t0 + durOrDefault o.duration, TEvent.autoClose id)] ∧
    fireEvent t (TEvent.autoClose id) s
      = { s with timers := s.timers ++ [(t + 300, TEvent.finishClose id)] } ∧
    fireEvent t (TEvent.finishClose id) s = dismissM t id s ∧
    (runUntil 10 1999 autoS1).toasts = [mkToast "xxxxxxx" autoOpts] ∧
    (runUntil 10 2299 autoS1).toasts = [mkToast "xxxxxxx" autoOpts] ∧
    (runUntil 10 2300 autoS1).toasts
      = [{ mkToast "xxxxxxx" autoOpts with visible := false }] ∧
    (runUntil 10 2799 autoS1).toasts
      = [{ mkToast "xxxxxxx" autoOpts with visible := false }] ∧
    (runUntil 10 2800 autoS1).toasts = [] := by
  refine ⟨?_, ?_, rfl, by decide, by decide, by decide, by decide, by decide⟩
  · have hne : durOrDefault o.duration ≠ 0 := durOrDefault_ne_zero o.duration
    simp [enqueueM, hne]
  · simp [fireEvent, h, ANIM]

/-- Witness for C6 at the concrete post-enqueue state of the 2000 ms record. -/
theorem C6_auto_dismiss_witness :
    hasVisible "xxxxxxx" autoS1.toasts = true ∧
    ((enqueueM 0 "xxxxxxx" autoOpts autoS1).1.timers
      = autoS1.timers
          ++ [(0 + durOrDefault autoOpts.duration, TEvent.autoClose "xxxxxxx")] ∧
    fireEvent 2000 (TEvent.autoClose "xxxxxxx") autoS1
      = { autoS1 with timers := autoS1.timers
          ++ [(2000 + 300, TEvent.finishClose "xxxxxxx")] } ∧
    fireEvent 2000 (TEvent.finishClose "xxxxxxx") autoS1
      = dismissM 2000 "xxxxxxx" autoS1 ∧
    (runUntil 10 1999 autoS1).toasts = [mkToast "xxxxxxx" autoOpts] ∧
    (runUntil 10 2299 autoS1).toasts = [mkToast "xxxxxxx" autoOpts] ∧
    (runUntil 10 2300 autoS1).toasts
      = [{ mkToast "xxxxxxx" autoOpts with visible := false }] ∧
    (runUntil 10 2799 autoS1).toasts
      = [{ mkToast "xxxxxxx" autoOpts with visible := false }] ∧
    (runUntil 10 2800 autoS1).toasts = []) :=
  ⟨by decide, C6_auto_dismiss autoS1 autoOpts "xxxxxxx" 0 2000 (by decide)⟩

/-- Counterexample for C6 as stated: at exactly 2000 ms after enqueue the
manager's collection has NOT undergone the dismiss state change — the record
is still visible, whereas an internal dismiss at that moment would have made
it closing.  The dismiss effect only lands 300 ms later. -/
theorem C6_counterexample :
    (runUntil 10 2000 autoS1).toasts ≠ (dismissM 2000 "xxxxxxx" autoS1).toasts ∧
    (runUntil 10 2000 autoS1).toasts.all (fun td => td.visible) = true ∧
    (dismissM 2000 "xxxxxxx" autoS1).toasts.all (fun td => !td.visible)
      = true := by
  decide

/-- The synchronous dismiss map is the identity on a collection whose
matching records are all already closing. -/
theorem hideToastSync_closing (id : String) (l : List ToastData)
    (h : ∀ td ∈ l, td.id = id → td.visible = false) :
    hideToastSync id l = l := by
  induction l with
  | nil => rfl
  | cons a l ih =>
    simp only [hideToastSync, List.map] at ih ⊢
    rw [ih fun td hm => h td (by simp [hm])]
    by_cases ha : a.id = id
    · rw [hideOne_closing id a (h a (by simp) ha)]
    · rw [hideOne_other id a ha]

/-- Claim C7 (amended): a further dismiss on an already-closing record leaves
every record unchanged (the synchronous map is the identity, and in
particular the record never goes back to visible), but it does append one
more removal timer 500 ms out; that extra timer is harmless — a removal
firing deletes every record with the id, and firing a removal again after
one has already fired changes nothing — so the record is removed exactly
once, at the originally scheduled (earliest) removal time. -/
theorem C7_dismiss_closing (s : MgrState) (now now2 : Nat) (id : String)
    (h : s.toasts.all (fun td => !(td.id == id) || !td.visible) = true) :
    (dismissM now id s).toasts = s.toasts ∧
    (dismissM now id s).timers = s.timers ++ [(now + 500, TEvent.removal id)] ∧
    (fireEvent now2 (TEvent.removal id) s).toasts.all
      (fun td => !(td.id == id)) = true ∧
    (fireEvent now2 (TEvent.removal id)
        (fireEvent now (TEvent.removal id) s)).toasts
      = (fireEvent now (TEvent.removal id) s).toasts ∧
    (dismissM now id s).toasts.all
      (fun td => !(td.id == id) || !td.visible) = true := by
  have h' : ∀ td ∈ s.toasts, td.id = id → td.visible = false := by
    intro td htd hid
    have hb := List.all_eq_true.mp h td htd
    simpa [hid] using hb
  have hsync : hideToastSync id s.toasts = s.toasts :=
    hideToastSync_closing id _ h'
  refine ⟨hsync, rfl, ?_, ?_, ?_⟩
  · simp only [fireEvent, List.all_eq_true]
    intro td htd
    simpa using removeToast_not_mem id _ td htd
  · show removeToast id (removeToast id s.toasts) = removeToast id s.toasts
    exact removeToast_idem id s.toasts
  · show (hideToastSync id s.toasts).all
      (fun td => !(td.id == id) || !td.visible) = true
    rw [hsync]
    exact h

/-- Witness for C7 at the concrete closing state. -/
theorem C7_dismiss_closing_witness :
    closingS.toasts.all
      (fun td => !(td.id == "xxxxxxx") || !td.visible) = true ∧
    ((dismissM 100 "xxxxxxx" closingS).toasts = closingS.toasts ∧
    (dismissM 100 "xxxxxxx" closingS).timers
      = closingS.timers ++ [(100 + 500, TEvent.removal "xxxxxxx")] ∧
    (fireEvent 500 (TEvent.removal "xxxxxxx") closingS).toasts.all
      (fun td => !(td.id == "xxxxxxx")) = true ∧
    (fireEvent 500 (TEvent.removal "xxxxxxx")
        (fireEvent 100 (TEvent.removal "xxxxxxx") closingS)).toasts
      = (fireEvent 100 (TEvent.removal "xxxxxxx") closingS).toasts ∧
    (dismissM 100 "xxxxxxx" closingS).toasts.all
      (fun td => !(td.id == "xxxxxxx") || !td.visible) = true) :=
  ⟨by decide, C7_dismiss_closing closingS 100 500 "xxxxxxx" (by decide)⟩

/-- Counterexample for C7 as stated: dismissing an already-closing record is
not free of scheduling — it appends one more removal timer (the source's
hideToast always runs its setTimeout), growing the pending-timer list. -/
theorem C7_counterexample :
    (dismissM 100 "xxxxxxx" closingS).timers
      = closingS.timers ++ [(600, TEvent.removal "xxxxxxx")] ∧
    (dismissM 100 "xxxxxxx" closingS).timers.length
      = closingS.timers.length + 1 := by
  decide
